import Mathlib

/-!
# ai-pixshop — verification of the AI-response orchestration layer and history store

Shallow embedding of the response classifier (`handleApiResponse` in
`src/services/geminiService.ts` and the server copy), the request builders
(edit / filter / adjust / text-to-image / reference / optimize / analyze),
the base64 data-URI codec (`dataURLtoFile` and the `data:<mime>;base64,<b64>`
producer), and the edit-history store.

JavaScript conventions are modelled explicitly: optional fields become
`Option`, the truthiness test `if (x)` on an optional string becomes
`jsTruthy` (an empty string is falsy), `x || d` becomes `jsOr`, and an
object lookup that misses interpolates the string "undefined" into a
template (`jsUndef`).
-/
namespace PixShop

/-- JS truthiness of an optional string: present and non-empty. -/
def jsTruthy : Option String → Bool
  | some s => s != ""
  | none => false

/-- JS `x || d` on an optional string: `x` when truthy, else `d`. -/
def jsOr (o : Option String) (d : String) : String :=
  match o with
  | some s => if s != "" then s else d
  | none => d

/-- Whitespace as stripped by the JS `String.prototype.trim` builtin
(restricted to the ASCII whitespace actually occurring here). -/
def jsWhitespace (c : Char) : Bool :=
  c = ' ' || c = '\t' || c = '\n' || c = '\r'

/-- Executable model of the JS `String.prototype.trim` builtin: drop leading
and trailing whitespace. -/
def jsTrim (s : String) : String :=
  ⟨((s.data.dropWhile jsWhitespace).reverse.dropWhile jsWhitespace).reverse⟩

/-! ## Provider response shape (the fields the code reads) -/
/-- The `part.inlineData` payload: a MIME type and base64 data. -/
structure InlineData where
  mimeType : String
  data : String
deriving DecidableEq

/-- One element of `candidates[0].content.parts`. -/
structure RespPart where
  inlineData : Option InlineData
  text : Option String
deriving DecidableEq

/-- The `candidates[0].content` object. -/
structure Content where
  parts : Option (List RespPart)
deriving DecidableEq

/-- One element of `response.candidates`. -/
structure Candidate where
  content : Option Content
  finishReason : Option String
deriving DecidableEq

/-- The `response.promptFeedback` object. -/
structure PromptFeedback where
  blockReason : Option String
  blockReasonMessage : Option String
deriving DecidableEq

/-- The provider response envelope: `promptFeedback?`, `candidates?`, and the
aggregated `text?` accessor the code reads. -/
structure GenResponse where
  promptFeedback : Option PromptFeedback
  candidates : Option (List Candidate)
  text : Option String
deriving DecidableEq

/-- Field access `response.promptFeedback?.blockReason`. -/
def respBlockReason (r : GenResponse) : Option String :=
  r.promptFeedback.bind PromptFeedback.blockReason

/-- Field access `response.promptFeedback?.blockReasonMessage`. -/
def respBlockMessage (r : GenResponse) : Option String :=
  r.promptFeedback.bind PromptFeedback.blockReasonMessage

/-- Field access `response.candidates?.[0]?.content?.parts`. -/
def respParts (r : GenResponse) : Option (List RespPart) :=
  ((r.candidates.bind List.head?).bind Candidate.content).bind Content.parts

/-- The search `response.candidates?.[0]?.content?.parts?.find(part => part.inlineData)`. -/
def respImagePart (r : GenResponse) : Option RespPart :=
  (respParts r).bind (List.find? fun p => p.inlineData.isSome)

/-- Field access `response.candidates?.[0]?.finishReason`. -/
def respFinishReason (r : GenResponse) : Option String :=
  (r.candidates.bind List.head?).bind Candidate.finishReason

/-! ## Outcome classification -/
/-- The classified outcome of one provider response (§4.2 of the design):
`Success` carries the produced data URL, `Blocked`/`StoppedEarly`/
`NoImageReturned` are the thrown error cases, `SuccessText` is the simplified
text-operation success. -/
inductive Outcome where
  | Success (dataUrl : String)
  | SuccessText (text : String)
  | Blocked (reason : String) (message : String)
  | StoppedEarly (reason : String)
  | NoImageReturned (text : Option String)
deriving DecidableEq

/-- Steps 3–5 of `handleApiResponse`: the fall-through after block check and
image search, reading `finishReason` and the trimmed aggregated text. -/
def classifyNoImage (r : GenResponse) : Outcome :=
  let fr := respFinishReason r
  if jsTruthy fr ∧ fr ≠ some "STOP" then
    Outcome.StoppedEarly (fr.getD "")
  else
    let tf := r.text.map jsTrim
    if jsTruthy tf then Outcome.NoImageReturned (some (tf.getD ""))
    else Outcome.NoImageReturned none

/-- The classifier `handleApiResponse` from `src/services/geminiService.ts` (the server copy
in the express file is line-for-line the same logic): block check first, then
the first inline-data part as a data URL, then the fall-through cases. -/
def handleApiResponse (r : GenResponse) : Outcome :=
  if jsTruthy (respBlockReason r) then
    Outcome.Blocked ((respBlockReason r).getD "") (jsOr (respBlockMessage r) "")
  else
    match respImagePart r with
    | some p =>
      match p.inlineData with
      | some d => Outcome.Success ("data:" ++ d.mimeType ++ ";base64," ++ d.data)
      | none => classifyNoImage r
    | none => classifyNoImage r

/-- The simplified classification used by the pure text operations
(`optimizePrompt` client-side and the `/api/optimize-prompt` handler):
`response.text?.trim()` is returned when truthy, else the generic
no-response error is thrown. No other field of the response is read. -/
def optimizeClassify (r : GenResponse) : Outcome :=
  match r.text.map jsTrim with
  | some t => if t != "" then Outcome.SuccessText t else Outcome.NoImageReturned none
  | none => Outcome.NoImageReturned none

/-! ## History store (C2)

The history state lives in `App.tsx` (`history[]` / `historyIndex` per the
repository's own architecture notes), which is not among the provided source
files, so the store is modelled from the spec. -/
/-- Modelled from the spec: the History of §3/§4.1 — `App.tsx`'s `history[]`
array plus `historyIndex` cursor is not under `src/`. An ordered sequence of
entries plus a cursor index, invariant `0 <= cursor < length` when the
sequence is non-empty. -/
structure History (α : Type) where
  entries : List α
  cursor : Nat
deriving DecidableEq

/-- Modelled from the spec: `push(asset)` appends a new entry after
discarding every entry strictly past the current cursor, then advances the
cursor to the new tip (§4.1). -/
def History.push {α : Type} (h : History α) (a : α) : History α :=
  let kept := h.entries.take (h.cursor + 1)
  ⟨kept ++ [a], (kept ++ [a]).length - 1⟩

/-- Errors of the History store contract (§4.1 / §7 taxonomy). -/
inductive HistoryError where
  | AtOldestVersion
  | AtNewestVersion
  | EmptyHistory
  | InvalidAsset
deriving DecidableEq

/-- Modelled from the spec: `undo()` moves the cursor back one position,
failing with `AtOldestVersion` when the cursor is already 0 (§4.1). -/
def History.undo {α : Type} (h : History α) : Except HistoryError (History α) :=
  if h.cursor = 0 then Except.error HistoryError.AtOldestVersion
  else Except.ok ⟨h.entries, h.cursor - 1⟩

/-- Performing `k` successive undos. -/
def undoTimes {α : Type} : Nat → History α → Except HistoryError (History α)
  | 0, h => Except.ok h
  | k + 1, h =>
    match h.undo with
    | Except.ok h2 => undoTimes k h2
    | Except.error e => Except.error e

/-- Pushing a list of entries in order. -/
def pushList {α : Type} (h : History α) (xs : List α) : History α :=
  xs.foldl History.push h

/-! ## Request builders -/
/-- One part of an outgoing provider request: an inline-data image part or a
text part. -/
inductive ReqPart where
  | image (mimeType : String) (data : String)
  | text (s : String)
deriving DecidableEq

/-- Conversion `fileToPart` / `fileToGeminiPart`: an image file as an inline-data part. -/
def toImagePart (d : InlineData) : ReqPart :=
  ReqPart.image d.mimeType d.data

/-- Whether a request part is an image part. -/
def ReqPart.isImage : ReqPart → Bool
  | ReqPart.image _ _ => true
  | ReqPart.text _ => false

/-- The localized-edit instruction template of `generateEditedImage`
(`src/services/geminiService.ts`), substituting the user prompt and the
hotspot coordinates. -/
def editPromptText (userPrompt : String) (x y : Int) : String :=
  "你是一位专业级照片编辑 AI。你的任务是根据用户的要求，在提供的图像上进行自然的局部编辑。\n用户请求: \"" ++ userPrompt ++
  "\"\n编辑位置: 专注于像素坐标 (x: " ++ toString x ++ ", y: " ++ toString y ++
  ") 周围的区域。\n\n编辑指南:\n- 编辑必须逼真，并与周围区域无缝融合。\n- 图像的其余部分（在直接编辑区域之外）必须与原始图像保持一致。\n\n\n输出: 仅返回最终编辑后的图像。不要返回文本。"

/-- The filter instruction template of `generateFilteredImage`. -/
def filterPromptText (filterPrompt : String) : String :=
  "你是一位专业级照片编辑 AI。你的任务是根据用户的要求，为整个图像应用风格化滤镜。不要改变构图或内容，只应用风格。\n滤镜请求: \"" ++ filterPrompt ++
  "\"\n\n输出: 仅返回最终编辑后的图像。不要返回文本。"

/-- The global-adjustment instruction template of `generateAdjustedImage`. -/
def adjustPromptText (adjustmentPrompt : String) : String :=
  "你是一位专业级照片编辑 AI。你的任务是根据用户的要求，对整个图像进行自然的全局调整。\n用户请求: \"" ++ adjustmentPrompt ++
  "\"\n\n编辑指南:\n- 调整必须应用于整个图像。\n- 结果必须是照片般逼真的。\n\n\n输出: 仅返回最终编辑后的图像。不要返回文本。"

/-- The reference-based instruction template of `generateWithReference`,
substituting the user prompt and the reference-image count. -/
def referencePromptText (userPrompt : String) (n : Nat) : String :=
  "你是一位专业的AI图像生成师。基于提供的参考图像和用户描述生成新图像。\n\n用户描述: \"" ++ userPrompt ++
  "\"\n参考图像数量: " ++ toString n ++
  "张\n\n生成指南:\n- 参考提供图像的风格、构图、色彩或元素\n- 根据用户描述创作新的图像内容\n- 融合参考图像的精髓与用户需求\n- 确保结果自然、和谐、富有创意\n\n输出: 仅返回生成的图像，不要返回文本。"

/-- The prompt-optimization instruction template of `optimizePrompt` (the
`/api/optimize-prompt` handler uses the identical text). -/
def optimizePromptText (originalPrompt : String) : String :=
  "你是一位专业的图像生成提示词优化专家。帮助用户将简单的描述转换为能够生成高质量图像的详细提示词。\n\n原始描述: \"" ++ originalPrompt ++
  "\"\n\n优化指南:\n- 保留用户的核心意图和主要元素\n- 添加具体的视觉细节（光影、色彩、构图）\n- 包含风格和技法描述\n- 使用专业的摄影或艺术术语\n- 确保描述清晰、具体、富有表现力\n\n请直接返回优化后的提示词，无需解释过程。"

/-- The image-analysis instruction of `analyzeImage` (a fixed text asking for
a JSON result). -/
def analyzePromptText : String :=
  "你是一位专业的图像分析师和视觉艺术专家。请详细分析这张图像并提供专业建议。\n\n请从以下方面进行分析：\n1. 构图分析：布局、平衡、焦点、视觉引导线等\n2. 色彩分析：色彩搭配、饱和度、对比度、情感表达\n3. 改进建议：具体的改进方向和建议\n\n请以JSON格式返回分析结果：\n\x7b\n    \"composition\": \"构图分析内容\",\n    \"colors\": \"色彩分析内容\", \n    \"suggestions\": \"改进建议内容\",\n    \"improvementPrompts\": [\"改进提示1\", \"改进提示2\", \"改进提示3\"]\n\x7d"

/-- Builder of `generateEditedImage`: `contents.parts = [originalImagePart, textPart]`. -/
def editRequestParts (img : InlineData) (userPrompt : String) (x y : Int) : List ReqPart :=
  [toImagePart img, ReqPart.text (editPromptText userPrompt x y)]

/-- Builder of `generateFilteredImage`: `contents.parts = [originalImagePart, textPart]`. -/
def filterRequestParts (img : InlineData) (filterPrompt : String) : List ReqPart :=
  [toImagePart img, ReqPart.text (filterPromptText filterPrompt)]

/-- Builder of `generateAdjustedImage`: `contents.parts = [originalImagePart, textPart]`. -/
def adjustRequestParts (img : InlineData) (adjustmentPrompt : String) : List ReqPart :=
  [toImagePart img, ReqPart.text (adjustPromptText adjustmentPrompt)]

/-- Builder of `generateWithReference`: `parts = [...referenceParts, textPart]` with the
reference images converted in upload order. -/
def referenceRequestParts (refs : List InlineData) (userPrompt : String) : List ReqPart :=
  refs.map toImagePart ++ [ReqPart.text (referencePromptText userPrompt refs.length)]

/-- Builder of `analyzeImage`: `contents.parts = [imagePart, textPart]`. -/
def analyzeRequestParts (img : InlineData) : List ReqPart :=
  [toImagePart img, ReqPart.text analyzePromptText]

/-- Builder of `optimizePrompt`: `contents.parts = [{ text: optimizationPrompt }]`. -/
def optimizeRequestParts (originalPrompt : String) : List ReqPart :=
  [ReqPart.text (optimizePromptText originalPrompt)]

/-! ## Text-to-image prompt templates (server route vs client function) -/
/-- The literal segment of the text-to-image template before the user
description (identical in the server route and the client function). -/
def t2iSegA : String :=
  "你是一位专业的AI图像生成师。根据用户的描述生成高质量图像。\n\n用户描述: \""

/-- The segment between the user description and the style label. -/
def t2iSegB : String := "\"\n风格要求: "

/-- The segment between the style label and the aspect-ratio label. -/
def t2iSegC : String := "\n画面比例: "

/-- The segment between the aspect-ratio label and the quality label. -/
def t2iSegD : String := "\n品质要求: "

/-- The literal tail of the text-to-image template. -/
def t2iSegE : String :=
  "\n\n生成指南:\n- 严格按照用户描述的内容和场景生成图像\n- 确保构图合理，光影自然\n- 细节丰富，色彩和谐\n- 符合指定的风格和品质要求\n\n输出: 仅返回生成的图像，不要返回文本。"

/-- The text-to-image template literal, as substituted by both the server
route and the client function: user description, then the resolved style,
aspect-ratio and quality labels. -/
def t2iPrompt (p styleLabel aspectLabel qualityLabel : String) : String :=
  t2iSegA ++ p ++ t2iSegB ++ styleLabel ++ t2iSegC ++ aspectLabel ++ t2iSegD ++ qualityLabel ++ t2iSegE

/-- JS lookup-and-interpolate: a missed object lookup is `undefined` and a JS
template interpolates it as the string "undefined". -/
def jsUndef (o : Option String) : String := o.getD "undefined"

/-- The `styleInstructions` lookup object (identical on server and client). -/
def styleInstructions (s : String) : Option String :=
  if s = "photo" then some "以摄影写实风格"
  else if s = "art" then some "以艺术绘画风格"
  else if s = "illustration" then some "以插画风格"
  else if s = "concept" then some "以概念设计风格"
  else none

/-- The server route's `aspectInstructions` lookup: `free` resolves to the
English label. -/
def serverAspectInstructions (s : String) : Option String :=
  if s = "1:1" then some "1:1"
  else if s = "16:9" then some "16:9"
  else if s = "9:16" then some "9:16"
  else if s = "free" then some "natural aspect ratio"
  else none

/-- The client `generateImageFromText`'s `aspectInstructions` lookup: `free`
resolves to the Chinese label. -/
def clientAspectInstructions (s : String) : Option String :=
  if s = "1:1" then some "1:1"
  else if s = "16:9" then some "16:9"
  else if s = "9:16" then some "9:16"
  else if s = "free" then some "自由比例"
  else none

/-- The `qualityInstructions` lookup object (identical on server and client). -/
def qualityInstructions (s : String) : Option String :=
  if s = "draft" then some "快速生成"
  else if s = "standard" then some "标准品质"
  else if s = "high" then some "高品质细节"
  else none

/-- The server `/api/text-to-image` instruction text: destructuring defaults
`style = 'photo'`, `aspectRatio = '1:1'`, `quality = 'high'`, then template
interpolation of the three lookups. -/
def serverT2IPrompt (p : String) (style aspectRatio quality : Option String) : String :=
  t2iPrompt p
    (jsUndef (styleInstructions (style.getD "photo")))
    (jsUndef (serverAspectInstructions (aspectRatio.getD "1:1")))
    (jsUndef (qualityInstructions (quality.getD "high")))

/-- The client `generateImageFromText` instruction text: destructuring
defaults `style = 'photo'`, `aspectRatio = '1:1'`, `quality = 'standard'`. -/
def clientT2IPrompt (p : String) (style aspectRatio quality : Option String) : String :=
  t2iPrompt p
    (jsUndef (styleInstructions (style.getD "photo")))
    (jsUndef (clientAspectInstructions (aspectRatio.getD "1:1")))
    (jsUndef (qualityInstructions (quality.getD "standard")))

/-- The JSON body of a `/api/text-to-image` request. -/
structure T2IBody where
  prompt : Option String
  style : Option String
  aspectRatio : Option String
  quality : Option String
deriving DecidableEq

/-- The pre-request phase of the server `/api/text-to-image` handler: the
only validation is `if (!prompt)` (a 400 error); otherwise the parts list
`[{ text: systemPrompt }]` is built and the request issued. -/
def serverTextToImageRoute (b : T2IBody) : Except String (List ReqPart) :=
  if jsTruthy b.prompt then
    Except.ok [ReqPart.text (serverT2IPrompt (b.prompt.getD "") b.style b.aspectRatio b.quality)]
  else Except.error "缺少图像描述"

/-- The client `generateImageFromText` request parts:
`contents.parts = [textPart]`. -/
def textToImageRequestParts (p : String) (style aspectRatio quality : Option String) : List ReqPart :=
  [ReqPart.text (clientT2IPrompt p style aspectRatio quality)]

/-! ## Claim C7 — parts ordering -/
/-- All parts before the last are image parts and the last part is the single
instruction-text part. -/
def partsWellOrdered (ps : List ReqPart) : Prop :=
  (∀ q ∈ ps.dropLast, q.isImage = true) ∧ ∃ t, ps.getLast? = some (ReqPart.text t)

/-! ## Claim C10 — analyzeImage performs no shape validation -/
/-- A JSON value, as produced by the `JSON.parse` builtin. -/
inductive Json where
  | null
  | bool (b : Bool)
  | num (n : Int)
  | str (s : String)
  | arr (xs : List Json)
  | obj (fields : List (String × Json))

/-- The result of `analyzeImage`'s response handling: the parsed JSON value
returned as-is, or one of its two thrown errors. -/
inductive AnalyzeResult where
  | ok (v : Json)
  | errNoResponse
  | errParse

/-- The response handling of `analyzeImage` (`JSON.parse` is a JS builtin,
passed as a parameter): `response.text?.trim()`, the generic error when that
is falsy, else `JSON.parse` with the parse-failure error on exception — the
parsed value is returned with no inspection of its fields. -/
def analyzeClassify (parse : String → Option Json) (r : GenResponse) : AnalyzeResult :=
  match r.text.map jsTrim with
  | some t =>
    if t != "" then
      match parse t with
      | some v => AnalyzeResult.ok v
      | none => AnalyzeResult.errParse
    else AnalyzeResult.errNoResponse
  | none => AnalyzeResult.errNoResponse

/-! ## Claim C8 — the data-URI codec

Encoding: the repo produces `data:<mimeType>;base64,<payload>` (server
`fileToGeminiPart` via `buffer.toString('base64')`, classifier success
path). Decoding: `dataURLtoFile` in `TextToImagePanel.tsx` splits on `,`,
extracts the MIME type with the regex `/:(.*?);/`, and decodes the payload
with the `atob` builtin. The JS builtins (standard base64, `String.split`,
the regex) are modelled executably below. -/
/-- An ImageAsset: opaque binary payload (bytes) plus MIME type. -/
structure ImageAsset where
  mimeType : String
  bytes : List Nat
deriving DecidableEq

/-- The standard base64 alphabet. -/
def base64Alphabet : List Char :=
  "ABCDEFGHIJKLMNOPQRSTUVWXYZabcdefghijklmnopqrstuvwxyz0123456789+/".data

/-- The base64 digit for a 6-bit value. -/
def b64Char (n : Nat) : Char :=
  base64Alphabet.getD n '?'

/-- The 6-bit value of a base64 digit (`none` for a character outside the
alphabet, which `atob` rejects). -/
def b64Val (c : Char) : Option Nat :=
  base64Alphabet.findIdx? (· = c)

/-- Standard base64 encoding (`buffer.toString('base64')` / the payload of
`FileReader.readAsDataURL`): three bytes become four digits, with `=`
padding for a final partial group. -/
def b64EncodeChunks : List Nat → List Char
  | [] => []
  | [b1] => [b64Char (b1 / 4), b64Char (b1 % 4 * 16), '=', '=']
  | [b1, b2] => [b64Char (b1 / 4), b64Char (b1 % 4 * 16 + b2 / 16), b64Char (b2 % 16 * 4), '=']
  | b1 :: b2 :: b3 :: rest =>
    b64Char (b1 / 4) :: b64Char (b1 % 4 * 16 + b2 / 16) ::
      b64Char (b2 % 16 * 4 + b3 / 64) :: b64Char (b3 % 64) :: b64EncodeChunks rest

/-- Standard base64 decoding (the `atob` builtin): four digits per group,
`=` padding only at the end. -/
def b64DecodeChunks : List Char → Option (List Nat)
  | [] => some []
  | c1 :: c2 :: c3 :: c4 :: rest =>
    match b64Val c1, b64Val c2 with
    | some v1, some v2 =>
      if c3 = '=' then
        if c4 = '=' ∧ rest = [] then some [v1 * 4 + v2 / 16] else none
      else
        match b64Val c3 with
        | some v3 =>
          if c4 = '=' then
            if rest = [] then some [v1 * 4 + v2 / 16, v2 % 16 * 16 + v3 / 4] else none
          else
            match b64Val c4, b64DecodeChunks rest with
            | some v4, some bs =>
              some ((v1 * 4 + v2 / 16) :: (v2 % 16 * 16 + v3 / 4) :: (v3 % 4 * 64 + v4) :: bs)
            | _, _ => none
        | none => none
    | _, _ => none
  | _ => none

/-- Encoding an asset to its data URI: `data:<mimeType>;base64,<payload>`. -/
def mkDataUrl (a : ImageAsset) : String :=
  "data:" ++ a.mimeType ++ ";base64," ++ String.mk (b64EncodeChunks a.bytes)

/-- The JS `String.prototype.split` builtin on a one-character separator. -/
def jsSplit (sep : Char) : List Char → List (List Char)
  | [] => [[]]
  | c :: rest =>
    match jsSplit sep rest with
    | [] => [[]]
    | g :: gs => if c = sep then [] :: g :: gs else (c :: g) :: gs

/-- The lazy capture of the regex `/:(.*?);/` after its `:` anchor: the
characters before the first `;`, failing if none follows. -/
def takeBeforeSemi : List Char → Option (List Char)
  | [] => none
  | c :: rest => if c = ';' then some [] else (takeBeforeSemi rest).map (c :: ·)

/-- The first match of the regex `/:(.*?);/`: scan for the earliest `:`
followed somewhere by a `;`, capturing lazily between them. -/
def captureColonSemi : List Char → Option (List Char)
  | [] => none
  | c :: rest =>
    if c = ':' then
      match takeBeforeSemi rest with
      | some cap => some cap
      | none => captureColonSemi rest
    else captureColonSemi rest

/-- The decoder `dataURLtoFile` from `src/components/draw/TextToImagePanel.tsx`: split on
`,` (requiring at least two pieces), extract the MIME type with `/:(.*?);/`
(requiring a truthy — non-empty — capture), `atob` the payload, and build
the resulting file content. -/
def dataURLtoFile (dataurl : String) : Option ImageAsset :=
  match jsSplit ',' dataurl.data with
  | header :: payload :: _ =>
    match captureColonSemi header with
    | some mime =>
      if mime = [] then none
      else (b64DecodeChunks payload).map fun bs => ⟨⟨mime⟩, bs⟩
    | none => none
  | _ => none

@[simp] theorem jsTruthy_some (s : String) : jsTruthy (some s) = (s != "") := rfl

@[simp] theorem jsTruthy_none : jsTruthy none = false := rfl

/-! ## Claims C1, C3, C4 — the image-response classifier -/
/-- C1: whenever `promptFeedback.blockReason` is present in a provider
response (block-reason enum values are non-empty strings, hence the
truthiness hypothesis), the classifier yields `Blocked` with that reason and
the `blockReasonMessage || ''` message — before any other classification
step, so regardless of inline-data parts or `finishReason`. -/
theorem blockReason_classifies_Blocked (r : GenResponse) (reason : String)
    (hb : respBlockReason r = some reason) (hne : reason ≠ "") :
    handleApiResponse r = Outcome.Blocked reason (jsOr (respBlockMessage r) "") := by
  unfold handleApiResponse
  rw [hb]
  simp [jsTruthy, hne, Option.getD]

/-- C1 witness: a response carrying a block reason, an inline-data image part
and a non-STOP finish reason still classifies as `Blocked`. -/
theorem blockReason_classifies_Blocked_witness :
    handleApiResponse
      { promptFeedback := some { blockReason := some "SAFETY", blockReasonMessage := some "blocked" },
        candidates := some [{ content := some { parts := some [{ inlineData := some ⟨"image/png", "QUJD"⟩, text := none }] },
                              finishReason := some "MAX_TOKENS" }],
        text := none } = Outcome.Blocked "SAFETY" "blocked" :=
  blockReason_classifies_Blocked _ "SAFETY" rfl (by decide)

/-- C3: with no block reason and no inline-data part, a present `finishReason`
different from the sentinel `"STOP"` (finish-reason enum values are non-empty
strings) classifies as `StoppedEarly` carrying that reason. -/
theorem finishReason_classifies_StoppedEarly (r : GenResponse) (fr : String)
    (hb : respBlockReason r = none)
    (hi : respImagePart r = none)
    (hf : respFinishReason r = some fr) (hne : fr ≠ "") (hstop : fr ≠ "STOP") :
    handleApiResponse r = Outcome.StoppedEarly fr := by
  unfold handleApiResponse
  rw [hb, hi]
  unfold classifyNoImage
  rw [hf]
  simp [jsTruthy, hne, hstop, Option.getD]

/-- C3 witness: a response with no block, no inline data and
`finishReason = "SAFETY"` classifies as `StoppedEarly "SAFETY"`. -/
theorem finishReason_classifies_StoppedEarly_witness :
    handleApiResponse
      { promptFeedback := none,
        candidates := some [{ content := some { parts := some [] }, finishReason := some "SAFETY" }],
        text := none } = Outcome.StoppedEarly "SAFETY" :=
  finishReason_classifies_StoppedEarly _ "SAFETY" rfl rfl rfl (by decide) (by decide)

/-- C4: with no block reason, no inline-data part, and `finishReason` absent
or equal to `"STOP"`, the classifier yields `NoImageReturned`: carrying the
trimmed aggregated text when that is non-empty, and carrying no text when the
text is empty or absent. -/
theorem fallthrough_classifies_NoImageReturned (r : GenResponse)
    (hb : respBlockReason r = none)
    (hi : respImagePart r = none)
    (hf : respFinishReason r = none ∨ respFinishReason r = some "STOP") :
    (∀ t, r.text = some t → jsTrim t ≠ "" →
      handleApiResponse r = Outcome.NoImageReturned (some (jsTrim t))) ∧
    ((∀ t, r.text = some t → jsTrim t = "") →
      handleApiResponse r = Outcome.NoImageReturned none) := by
  have hmain : handleApiResponse r = classifyNoImage r := by
    unfold handleApiResponse
    rw [hb, hi]
    simp [jsTruthy]
  constructor
  · intro t ht hne
    rw [hmain]
    unfold classifyNoImage
    rcases hf with hf | hf <;>
      simp [hf, jsTruthy, ht, hne, Option.getD]
  · intro hempty
    rw [hmain]
    unfold classifyNoImage
    rcases hf with hf | hf <;>
    · cases ht : r.text with
      | none => simp [hf, jsTruthy, ht]
      | some t =>
        have := hempty t ht
        simp [hf, jsTruthy, ht, this]

/-- C4 witness: the empty case (`finishReason = "STOP"`, whitespace-only
text) classifies as `NoImageReturned none`, applied from the theorem. -/
theorem fallthrough_classifies_NoImageReturned_witness :
    handleApiResponse
      { promptFeedback := none,
        candidates := some [{ content := some { parts := some [] }, finishReason := some "STOP" }],
        text := some "  " } = Outcome.NoImageReturned none :=
  (fallthrough_classifies_NoImageReturned
      { promptFeedback := none,
        candidates := some [{ content := some { parts := some [] }, finishReason := some "STOP" }],
        text := some "  " }
      rfl rfl (Or.inr rfl)).2
    (by intro t ht; cases ht; decide)

theorem push_tip {α : Type} (l : List α) (a : α) (hl : l ≠ []) :
    History.push ⟨l, l.length - 1⟩ a = ⟨l ++ [a], (l ++ [a]).length - 1⟩ := by
  unfold History.push
  have : l.length - 1 + 1 = l.length := by
    cases l with
    | nil => exact absurd rfl hl
    | cons x xs => simp
  rw [this, List.take_length]

theorem pushList_tip {α : Type} (xs : List α) :
    ∀ (l : List α), l ≠ [] →
      pushList ⟨l, l.length - 1⟩ xs = ⟨l ++ xs, (l ++ xs).length - 1⟩ := by
  induction xs with
  | nil => intro l hl; simp [pushList]
  | cons x xs ih =>
    intro l hl
    show pushList (History.push ⟨l, l.length - 1⟩ x) xs = _
    rw [push_tip l x hl]
    have := ih (l ++ [x]) (by simp)
    rw [this]
    simp

theorem pushList_from_empty {α : Type} (xs : List α) (hx : xs ≠ []) :
    pushList (⟨[], 0⟩ : History α) xs = ⟨xs, xs.length - 1⟩ := by
  cases xs with
  | nil => exact absurd rfl hx
  | cons x xs =>
    show pushList (History.push ⟨[], 0⟩ x) xs = _
    have h1 : History.push (⟨[], 0⟩ : History α) x = ⟨[x], 0⟩ := by
      simp [History.push]
    rw [h1]
    have := pushList_tip xs [x] (by simp)
    simpa using this

theorem undoTimes_ok {α : Type} (k : Nat) :
    ∀ (l : List α) (n : Nat), k ≤ n →
      undoTimes k (⟨l, n⟩ : History α) = Except.ok ⟨l, n - k⟩ := by
  induction k with
  | zero => intro l n _; simp [undoTimes]
  | succ k ih =>
    intro l n hk
    have hn : n ≠ 0 := by omega
    have h1 : History.undo (⟨l, n⟩ : History α) = Except.ok ⟨l, n - 1⟩ := by
      unfold History.undo; rw [if_neg hn]
    show (match History.undo ⟨l, n⟩ with
          | Except.ok h2 => undoTimes k h2
          | Except.error e => Except.error e) = _
    rw [h1]
    show undoTimes k (⟨l, n - 1⟩ : History α) = _
    rw [ih l (n - 1) (by omega)]
    have : n - 1 - k = n - (k + 1) := by omega
    rw [this]

/-- C2: starting from an empty history, pushing the entries of `xs`
(`N = xs.length`), undoing `k < N` times, and pushing one more entry yields a
history whose entries are the first `N - k` pushed entries followed by the
new one — every entry strictly after the cursor was discarded — with length
`N - k + 1` (not `N + 1`) and the cursor at the new tip, preserving
`cursor < length`. -/
theorem push_after_undo_truncates {α : Type} (xs : List α) (k : Nat) (a : α)
    (hk : k < xs.length) :
    ∃ h' : History α,
      undoTimes k (pushList ⟨[], 0⟩ xs) = Except.ok h' ∧
      (h'.push a).entries = xs.take (xs.length - k) ++ [a] ∧
      (h'.push a).entries.length = xs.length - k + 1 ∧
      (h'.push a).cursor = xs.length - k ∧
      (h'.push a).cursor < (h'.push a).entries.length := by
  have hx : xs ≠ [] := by
    intro h; rw [h] at hk; simp at hk
  rw [pushList_from_empty xs hx]
  refine ⟨⟨xs, xs.length - 1 - k⟩, ?_, ?_, ?_, ?_, ?_⟩
  · exact undoTimes_ok k xs (xs.length - 1) (by omega)
  · show xs.take (xs.length - 1 - k + 1) ++ [a] = _
    congr 2
    omega
  · show (xs.take (xs.length - 1 - k + 1) ++ [a]).length = _
    simp [List.length_take]
    omega
  · show (xs.take (xs.length - 1 - k + 1) ++ [a]).length - 1 = _
    simp [List.length_take]
    omega
  · show (xs.take (xs.length - 1 - k + 1) ++ [a]).length - 1 <
        (xs.take (xs.length - 1 - k + 1) ++ [a]).length
    simp

/-- C2 witness: push three entries, undo twice, push once more — length is
`3 - 2 + 1 = 2`, entries are the first kept entry and the new one, cursor 1. -/
theorem push_after_undo_truncates_witness :
    ∃ h' : History Nat,
      undoTimes 2 (pushList ⟨[], 0⟩ [10, 20, 30]) = Except.ok h' ∧
      (h'.push 40).entries = [10, 20, 30].take 1 ++ [40] ∧
      (h'.push 40).entries.length = 2 ∧
      (h'.push 40).cursor = 1 ∧
      (h'.push 40).cursor < (h'.push 40).entries.length :=
  push_after_undo_truncates [10, 20, 30] 2 40 (by decide)

/-- C7: every operation kind builds its parts list with all image parts first
(primary image, then reference images in upload order) and the single
instruction-text part last; in particular edit/filter/adjust build
`[imagePart, textPart]` and reference builds `[...referenceParts, textPart]`. -/
theorem requestParts_images_first_text_last (img : InlineData) (p : String) (x y : Int)
    (refs : List InlineData) (style aspectRatio quality : Option String) :
    editRequestParts img p x y = [toImagePart img, ReqPart.text (editPromptText p x y)] ∧
    filterRequestParts img p = [toImagePart img, ReqPart.text (filterPromptText p)] ∧
    adjustRequestParts img p = [toImagePart img, ReqPart.text (adjustPromptText p)] ∧
    referenceRequestParts refs p
      = refs.map toImagePart ++ [ReqPart.text (referencePromptText p refs.length)] ∧
    partsWellOrdered (editRequestParts img p x y) ∧
    partsWellOrdered (filterRequestParts img p) ∧
    partsWellOrdered (adjustRequestParts img p) ∧
    partsWellOrdered (referenceRequestParts refs p) ∧
    partsWellOrdered (analyzeRequestParts img) ∧
    partsWellOrdered (optimizeRequestParts p) ∧
    partsWellOrdered (textToImageRequestParts p style aspectRatio quality) := by
  refine ⟨rfl, rfl, rfl, rfl, ?_, ?_, ?_, ?_, ?_, ?_, ?_⟩
  · exact ⟨by simp [editRequestParts, toImagePart, ReqPart.isImage], editPromptText p x y, rfl⟩
  · exact ⟨by simp [filterRequestParts, toImagePart, ReqPart.isImage], filterPromptText p, rfl⟩
  · exact ⟨by simp [adjustRequestParts, toImagePart, ReqPart.isImage], adjustPromptText p, rfl⟩
  · constructor
    · intro q hq
      rw [referenceRequestParts, List.dropLast_concat] at hq
      obtain ⟨d, _, rfl⟩ := List.mem_map.mp hq
      rfl
    · exact ⟨_, by rw [referenceRequestParts, List.getLast?_concat]⟩
  · exact ⟨by simp [analyzeRequestParts, toImagePart, ReqPart.isImage], analyzePromptText, rfl⟩
  · exact ⟨by simp [optimizeRequestParts], optimizePromptText p, rfl⟩
  · exact ⟨by simp [textToImageRequestParts], clientT2IPrompt p style aspectRatio quality, rfl⟩

/-- C7 witness: the reference builder on two concrete reference images puts
both image parts first and the instruction text last. -/
theorem requestParts_images_first_text_last_witness :
    referenceRequestParts [⟨"image/png", "QQ=="⟩, ⟨"image/jpeg", "Ug=="⟩] "融合"
      = [ReqPart.image "image/png" "QQ==", ReqPart.image "image/jpeg" "Ug==",
         ReqPart.text (referencePromptText "融合" 2)] :=
  ((requestParts_images_first_text_last ⟨"image/png", "QQ=="⟩ "融合" 0 0
      [⟨"image/png", "QQ=="⟩, ⟨"image/jpeg", "Ug=="⟩] none none none).2.2.2.1).trans rfl

/-! ## Claim C6 — unrecognized enum values -/
/-- C6 counterexample: `"cartoon"` is not a member of the style enumeration,
yet the server text-to-image route does not fail — it issues the request
with the JS string "undefined" interpolated as the style label. -/
theorem unknown_style_not_rejected_counterexample :
    styleInstructions "cartoon" = none ∧
    serverTextToImageRoute ⟨some "a cat", some "cartoon", none, none⟩
      = Except.ok [ReqPart.text (t2iPrompt "a cat" "undefined" "1:1" "高品质细节")] := by
  constructor
  · decide
  · rfl

/-- C6 amended: for a request whose style value is not a member of the
enumeration, the builder performs no validation and never fails with
`InvalidOption`; it resolves the lookup to JS `undefined`, interpolates the
string "undefined" as the style label, and issues the request (the only
failing check on the route is a missing/empty prompt). -/
theorem unknown_style_interpolates_undefined (p st : String) (oa oq : Option String)
    (hp : p ≠ "") (hst : styleInstructions st = none) :
    serverTextToImageRoute ⟨some p, some st, oa, oq⟩
      = Except.ok [ReqPart.text (t2iPrompt p "undefined"
          (jsUndef (serverAspectInstructions (oa.getD "1:1")))
          (jsUndef (qualityInstructions (oq.getD "high"))))] := by
  unfold serverTextToImageRoute
  simp only [jsTruthy_some, Option.getD_some]
  rw [if_pos (by simpa using hp)]
  unfold serverT2IPrompt
  rw [Option.getD_some, hst]
  rfl

/-- C6 amended witness: an unknown aspect ratio together with an unknown
style still issues the request, with "undefined" labels interpolated. -/
theorem unknown_style_interpolates_undefined_witness :
    serverTextToImageRoute ⟨some "dog", some "sketch", some "4:3", some "high"⟩
      = Except.ok [ReqPart.text (t2iPrompt "dog" "undefined" "undefined" "高品质细节")] :=
  (unknown_style_interpolates_undefined "dog" "sketch" (some "4:3") (some "high")
    (by decide) (by decide)).trans (by rfl)

/-! ## Claim C9 — server route vs client function -/
theorem t2iPrompt_length (p sl al ql : String) :
    (t2iPrompt p sl al ql).length =
      t2iSegA.length + p.length + t2iSegB.length + sl.length + t2iSegC.length +
        al.length + t2iSegD.length + ql.length + t2iSegE.length := by
  simp [t2iPrompt, String.length_append]

theorem aspect_lookup_cases (a : String) :
    (serverAspectInstructions a = clientAspectInstructions a ∧
      serverAspectInstructions a ≠ some "natural aspect ratio") ∨
    (serverAspectInstructions a = some "natural aspect ratio" ∧
      clientAspectInstructions a = some "自由比例") := by
  unfold serverAspectInstructions clientAspectInstructions
  split_ifs <;> simp_all

theorem aspect_lookup_eq_of_ne_free (a : String) (ha : a ≠ "free") :
    serverAspectInstructions a = clientAspectInstructions a := by
  unfold serverAspectInstructions clientAspectInstructions
  split_ifs <;> simp_all

/-- C9: the server `/api/text-to-image` route and the client-direct
`generateImageFromText` build different instruction text for the same
inputs — the server defaults an omitted quality to `high` while the client
defaults it to `standard` (so with quality omitted the two texts always
differ), and the server maps aspect ratio `free` to `natural aspect ratio`
while the client maps it to `自由比例` (so with `free` the two texts always
differ) — while for a fully specified request with a non-`free` aspect ratio
the two build identical instruction text. -/
theorem server_client_t2i_divergence :
    (∀ p os oa, serverT2IPrompt p os oa none = serverT2IPrompt p os oa (some "high")) ∧
    (∀ p os oa, clientT2IPrompt p os oa none = clientT2IPrompt p os oa (some "standard")) ∧
    (∀ p os oa, serverT2IPrompt p os oa none ≠ clientT2IPrompt p os oa none) ∧
    serverAspectInstructions "free" = some "natural aspect ratio" ∧
    clientAspectInstructions "free" = some "自由比例" ∧
    (∀ p os oq, serverT2IPrompt p os (some "free") oq ≠ clientT2IPrompt p os (some "free") oq) ∧
    (∀ p s a q, a ≠ "free" →
      serverT2IPrompt p (some s) (some a) (some q) = clientT2IPrompt p (some s) (some a) (some q)) := by
  have hq5 : (jsUndef (qualityInstructions "high")).length = 5 := by decide
  have hq4 : (jsUndef (qualityInstructions "standard")).length = 4 := by decide
  have hfree : ∀ p os oq, serverT2IPrompt p os (some "free") oq ≠ clientT2IPrompt p os (some "free") oq := by
    intro p os oq h
    have hl := congrArg String.length h
    rw [serverT2IPrompt, clientT2IPrompt, t2iPrompt_length, t2iPrompt_length] at hl
    simp only [Option.getD_some] at hl
    have h1 : (jsUndef (serverAspectInstructions "free")).length = 20 := by decide
    have h2 : (jsUndef (clientAspectInstructions "free")).length = 4 := by decide
    rw [h1, h2] at hl
    cases oq with
    | none =>
      simp only [Option.getD_none] at hl
      rw [hq5, hq4] at hl
      omega
    | some q =>
      simp only [Option.getD_some] at hl
      omega
  refine ⟨fun p os oa => rfl, fun p os oa => rfl, ?_, by decide, by decide, hfree, ?_⟩
  · intro p os oa h
    have hl := congrArg String.length h
    rw [serverT2IPrompt, clientT2IPrompt, t2iPrompt_length, t2iPrompt_length] at hl
    simp only [Option.getD_none] at hl
    rw [hq5, hq4] at hl
    rcases aspect_lookup_cases (oa.getD "1:1") with ⟨heq, _⟩ | ⟨h1, h2⟩
    · rw [heq] at hl
      omega
    · rw [h1, h2] at hl
      have e1 : (jsUndef (some "natural aspect ratio")).length = 20 := by decide
      have e2 : (jsUndef (some "自由比例")).length = 4 := by decide
      rw [e1, e2] at hl
      omega
  · intro p s a q ha
    unfold serverT2IPrompt clientT2IPrompt
    simp only [Option.getD_some]
    rw [aspect_lookup_eq_of_ne_free a ha]

/-- C9 witness: a fully specified non-`free` request builds the identical
instruction text on the server route and the client function. -/
theorem server_client_t2i_divergence_witness :
    serverT2IPrompt "山水" (some "art") (some "16:9") (some "draft")
      = clientT2IPrompt "山水" (some "art") (some "16:9") (some "draft") :=
  server_client_t2i_divergence.2.2.2.2.2.2 "山水" "art" "16:9" "draft" (by decide)

/-! ## Claim C5 — pure text operations -/
/-- C5 counterexample: a response whose `promptFeedback.blockReason` is
present and whose aggregated text is non-empty. The text-operation
classification of `optimizePrompt` (and of the `/api/optimize-prompt`
handler) ignores the block and returns the text as a success — it never
produces `Blocked`. -/
theorem optimize_ignores_blockReason_counterexample :
    respBlockReason
      { promptFeedback := some { blockReason := some "SAFETY", blockReasonMessage := none },
        candidates := none,
        text := some "optimized" } = some "SAFETY" ∧
    optimizeClassify
      { promptFeedback := some { blockReason := some "SAFETY", blockReasonMessage := none },
        candidates := none,
        text := some "optimized" } = Outcome.SuccessText "optimized" := by
  constructor
  · rfl
  · decide

/-- C5 amended: the pure text operations perform no `blockReason` check at
all. They read only `response.text?.trim()`: whenever the trimmed text is
non-empty they return `SuccessText` — even when `promptFeedback.blockReason`
is present — and when the text is empty or absent they fail with the generic
no-response error (`NoImageReturned none`), never with `Blocked`. -/
theorem optimize_classifies_text_only (r : GenResponse) :
    (∀ t, r.text = some t → jsTrim t ≠ "" →
      optimizeClassify r = Outcome.SuccessText (jsTrim t)) ∧
    ((∀ t, r.text = some t → jsTrim t = "") →
      optimizeClassify r = Outcome.NoImageReturned none) ∧
    (∀ reason message, optimizeClassify r ≠ Outcome.Blocked reason message) := by
  refine ⟨?_, ?_, ?_⟩
  · intro t ht hne
    unfold optimizeClassify
    rw [ht]
    simp [hne]
  · intro hempty
    unfold optimizeClassify
    cases ht : r.text with
    | none => rfl
    | some t =>
      have := hempty t ht
      simp [this]
  · intro reason message
    unfold optimizeClassify
    cases ht : r.text with
    | none => simp
    | some t =>
      by_cases h : jsTrim t = "" <;> simp [h]

/-- C5 amended witness: a blocked response with non-empty text classifies as
`SuccessText`, applied from the theorem. -/
theorem optimize_classifies_text_only_witness :
    optimizeClassify
      { promptFeedback := some { blockReason := some "OTHER", blockReasonMessage := some "m" },
        candidates := none,
        text := some " 提示词 " } = Outcome.SuccessText (jsTrim " 提示词 ") :=
  (optimize_classifies_text_only
      { promptFeedback := some { blockReason := some "OTHER", blockReasonMessage := some "m" },
        candidates := none,
        text := some " 提示词 " }).1 " 提示词 " rfl (by decide)

/-- C10: for every parse function and response, whenever the trimmed text is
non-empty and parses to a value `v`, `analyzeImage` returns `v` as-is — `v`
ranges over all JSON values, so no shape requirement on `composition`,
`colors`, `suggestions` or `improvementPrompts` is imposed — and it throws
exactly when the text is empty/absent (the no-response error) or parsing
fails (the format error). -/
theorem analyze_returns_parse_result_as_is (parse : String → Option Json) (r : GenResponse) :
    (∀ t v, r.text = some t → jsTrim t ≠ "" → parse (jsTrim t) = some v →
      analyzeClassify parse r = AnalyzeResult.ok v) ∧
    ((∀ t, r.text = some t → jsTrim t = "") →
      analyzeClassify parse r = AnalyzeResult.errNoResponse) ∧
    (∀ t, r.text = some t → jsTrim t ≠ "" → parse (jsTrim t) = none →
      analyzeClassify parse r = AnalyzeResult.errParse) := by
  refine ⟨?_, ?_, ?_⟩
  · intro t v ht hne hp
    unfold analyzeClassify
    rw [ht]
    simp [hne, hp]
  · intro hempty
    unfold analyzeClassify
    cases ht : r.text with
    | none => rfl
    | some t =>
      have := hempty t ht
      simp [this]
  · intro t ht hne hp
    unfold analyzeClassify
    rw [ht]
    simp [hne, hp]

/-- C10 witness: a parse producing an object with none of the expected
analysis fields is still returned as-is. -/
theorem analyze_returns_parse_result_as_is_witness :
    analyzeClassify (fun _ => some (Json.obj []))
      { promptFeedback := none, candidates := none, text := some "[]" }
      = AnalyzeResult.ok (Json.obj []) :=
  (analyze_returns_parse_result_as_is (fun _ => some (Json.obj []))
      { promptFeedback := none, candidates := none, text := some "[]" }).1
    "[]" (Json.obj []) rfl (by decide) rfl

theorem b64Val_b64Char : ∀ n, n < 64 → b64Val (b64Char n) = some n := by decide

theorem b64Char_ne_eq : ∀ n, n < 64 → b64Char n ≠ '=' := by decide

theorem b64Char_ne_comma : ∀ n, n < 64 → b64Char n ≠ ',' := by decide

/-- Decoding inverts encoding on byte lists. -/
theorem b64_decode_encode (bs : List Nat) (hb : ∀ b ∈ bs, b < 256) :
    b64DecodeChunks (b64EncodeChunks bs) = some bs := by
  induction bs using b64EncodeChunks.induct with
  | case1 => rfl
  | case2 b1 =>
    have h1 : b1 < 256 := hb b1 (by simp)
    have e1 := b64Val_b64Char (b1 / 4) (by omega)
    have e2 := b64Val_b64Char (b1 % 4 * 16) (by omega)
    simp only [b64EncodeChunks, b64DecodeChunks, e1, e2, and_self, if_true, reduceIte]
    congr 2
    omega
  | case3 b1 b2 =>
    have h1 : b1 < 256 := hb b1 (by simp)
    have h2 : b2 < 256 := hb b2 (by simp)
    have e1 := b64Val_b64Char (b1 / 4) (by omega)
    have e2 := b64Val_b64Char (b1 % 4 * 16 + b2 / 16) (by omega)
    have e3 := b64Val_b64Char (b2 % 16 * 4) (by omega)
    have n3 := b64Char_ne_eq (b2 % 16 * 4) (by omega)
    simp only [b64EncodeChunks, b64DecodeChunks, e1, e2, e3, n3, if_false, if_true,
      ne_eq, not_false_iff, reduceIte]
    congr 2
    · omega
    · congr 1
      omega
  | case4 b1 b2 b3 rest ih =>
    have h1 : b1 < 256 := hb b1 (by simp)
    have h2 : b2 < 256 := hb b2 (by simp)
    have h3 : b3 < 256 := hb b3 (by simp)
    have hrest : ∀ b ∈ rest, b < 256 := fun b hbb => hb b (by simp [hbb])
    have e1 := b64Val_b64Char (b1 / 4) (by omega)
    have e2 := b64Val_b64Char (b1 % 4 * 16 + b2 / 16) (by omega)
    have e3 := b64Val_b64Char (b2 % 16 * 4 + b3 / 64) (by omega)
    have e4 := b64Val_b64Char (b3 % 64) (by omega)
    have n3 := b64Char_ne_eq (b2 % 16 * 4 + b3 / 64) (by omega)
    have n4 := b64Char_ne_eq (b3 % 64) (by omega)
    simp only [b64EncodeChunks, b64DecodeChunks, e1, e2, e3, e4, n3, n4, if_false,
      ne_eq, not_false_iff, reduceIte, ih hrest]
    congr 3
    · omega
    · omega
    · congr 1
      omega

/-- The encoded payload never contains a comma. -/
theorem comma_not_mem_encode (bs : List Nat) (hb : ∀ b ∈ bs, b < 256) :
    ',' ∉ b64EncodeChunks bs := by
  induction bs using b64EncodeChunks.induct with
  | case1 => simp [b64EncodeChunks]
  | case2 b1 =>
    have h1 : b1 < 256 := hb b1 (by simp)
    have n1 := b64Char_ne_comma (b1 / 4) (by omega)
    have n2 := b64Char_ne_comma (b1 % 4 * 16) (by omega)
    simp only [b64EncodeChunks, List.mem_cons, List.not_mem_nil, or_false]
    push_neg
    exact ⟨fun h => n1 h.symm, fun h => n2 h.symm, by decide, by decide⟩
  | case3 b1 b2 =>
    have h1 : b1 < 256 := hb b1 (by simp)
    have h2 : b2 < 256 := hb b2 (by simp)
    have n1 := b64Char_ne_comma (b1 / 4) (by omega)
    have n2 := b64Char_ne_comma (b1 % 4 * 16 + b2 / 16) (by omega)
    have n3 := b64Char_ne_comma (b2 % 16 * 4) (by omega)
    simp only [b64EncodeChunks, List.mem_cons, List.not_mem_nil, or_false]
    push_neg
    exact ⟨fun h => n1 h.symm, fun h => n2 h.symm, fun h => n3 h.symm, by decide⟩
  | case4 b1 b2 b3 rest ih =>
    have h1 : b1 < 256 := hb b1 (by simp)
    have h2 : b2 < 256 := hb b2 (by simp)
    have h3 : b3 < 256 := hb b3 (by simp)
    have hrest : ∀ b ∈ rest, b < 256 := fun b hbb => hb b (by simp [hbb])
    have n1 := b64Char_ne_comma (b1 / 4) (by omega)
    have n2 := b64Char_ne_comma (b1 % 4 * 16 + b2 / 16) (by omega)
    have n3 := b64Char_ne_comma (b2 % 16 * 4 + b3 / 64) (by omega)
    have n4 := b64Char_ne_comma (b3 % 64) (by omega)
    simp only [b64EncodeChunks, List.mem_cons]
    push_neg
    exact ⟨fun h => n1 h.symm, fun h => n2 h.symm, fun h => n3 h.symm,
      fun h => n4 h.symm, ih hrest⟩

theorem jsSplit_ne_nil (sep : Char) (l : List Char) : jsSplit sep l ≠ [] := by
  cases l with
  | nil => simp [jsSplit]
  | cons c rest =>
    rw [jsSplit]
    cases h : jsSplit sep rest with
    | nil => simp
    | cons g gs =>
      by_cases hc : c = sep <;> simp [hc]

/-- A separator-free string splits to itself alone. -/
theorem jsSplit_no_sep (sep : Char) (l : List Char) (h : sep ∉ l) :
    jsSplit sep l = [l] := by
  induction l with
  | nil => rfl
  | cons c rest ih =>
    have hc : c ≠ sep := fun hh => h (hh ▸ List.mem_cons_self c rest)
    have hrest : sep ∉ rest := fun hh => h (List.mem_cons_of_mem c hh)
    rw [jsSplit, ih hrest]
    simp [hc]

/-- Splitting at the first separator: a separator-free head, the separator,
then the rest. -/
theorem jsSplit_append (sep : Char) (l1 l2 : List Char) (h : sep ∉ l1) :
    jsSplit sep (l1 ++ sep :: l2) = l1 :: jsSplit sep l2 := by
  induction l1 with
  | nil =>
    show jsSplit sep (sep :: l2) = [] :: jsSplit sep l2
    rw [jsSplit]
    cases hs : jsSplit sep l2 with
    | nil => exact absurd hs (jsSplit_ne_nil sep l2)
    | cons g gs => simp
  | cons c rest ih =>
    have hc : c ≠ sep := fun hh => h (hh ▸ List.mem_cons_self c rest)
    have hrest : sep ∉ rest := fun hh => h (List.mem_cons_of_mem c hh)
    show jsSplit sep (c :: (rest ++ sep :: l2)) = _
    rw [jsSplit, ih hrest]
    simp [hc]

/-- The lazy capture stops at the first `;`. -/
theorem takeBeforeSemi_append (l1 l2 : List Char) (h : ';' ∉ l1) :
    takeBeforeSemi (l1 ++ ';' :: l2) = some l1 := by
  induction l1 with
  | nil => simp [takeBeforeSemi]
  | cons c rest ih =>
    have hc : c ≠ ';' := fun hh => h (hh ▸ List.mem_cons_self c rest)
    have hrest : ';' ∉ rest := fun hh => h (List.mem_cons_of_mem c hh)
    show takeBeforeSemi (c :: (rest ++ ';' :: l2)) = _
    rw [takeBeforeSemi, if_neg hc, ih hrest]
    rfl

/-- C8: encoding an ImageAsset to its `data:<mimeType>;base64,<payload>`
data URI and decoding it back with `dataURLtoFile` recovers byte-identical
content and the identical MIME type, for every byte payload and every MIME
type matching the format (non-empty and free of the `;`/`,` delimiters). -/
theorem dataUrl_roundtrip (a : ImageAsset)
    (hbytes : ∀ b ∈ a.bytes, b < 256)
    (hne : a.mimeType ≠ "")
    (hsemi : ';' ∉ a.mimeType.data)
    (hcomma : ',' ∉ a.mimeType.data) :
    dataURLtoFile (mkDataUrl a) = some a := by
  have hdata : (mkDataUrl a).data =
      ('d' :: 'a' :: 't' :: 'a' :: ':' ::
        (a.mimeType.data ++ ';' :: 'b' :: 'a' :: 's' :: 'e' :: '6' :: '4' :: []))
      ++ ',' :: b64EncodeChunks a.bytes := by
    show ("data:" ++ a.mimeType ++ ";base64," ++ String.mk (b64EncodeChunks a.bytes)).data = _
    simp [String.data_append]
  have hnocomma : ',' ∉ ('d' :: 'a' :: 't' :: 'a' :: ':' ::
      (a.mimeType.data ++ ';' :: 'b' :: 'a' :: 's' :: 'e' :: '6' :: '4' :: [])) := by
    simp only [List.mem_cons, List.mem_append]
    push_neg
    exact ⟨by decide, by decide, by decide, by decide, by decide,
      hcomma, by decide, by decide, by decide, by decide, by decide, by decide, by decide⟩
  unfold dataURLtoFile
  rw [hdata, jsSplit_append ',' _ _ hnocomma,
    jsSplit_no_sep ',' _ (comma_not_mem_encode a.bytes hbytes)]
  have hcap : captureColonSemi ('d' :: 'a' :: 't' :: 'a' :: ':' ::
      (a.mimeType.data ++ ';' :: 'b' :: 'a' :: 's' :: 'e' :: '6' :: '4' :: []))
      = some a.mimeType.data := by
    rw [captureColonSemi, if_neg (by decide)]
    rw [captureColonSemi, if_neg (by decide)]
    rw [captureColonSemi, if_neg (by decide)]
    rw [captureColonSemi, if_neg (by decide)]
    rw [captureColonSemi, if_pos rfl,
      takeBeforeSemi_append a.mimeType.data _ hsemi]
  have hmime_ne : a.mimeType.data ≠ [] := by
    intro h
    exact hne (String.ext h)
  simp only [hcap]
  rw [if_neg hmime_ne, b64_decode_encode a.bytes hbytes]
  rfl

/-- C8 witness: a concrete PNG-header payload round-trips through the data
URI exactly. -/
theorem dataUrl_roundtrip_witness :
    dataURLtoFile (mkDataUrl ⟨"image/png", [137, 80, 78, 71, 13]⟩)
      = some ⟨"image/png", [137, 80, 78, 71, 13]⟩ :=
  dataUrl_roundtrip ⟨"image/png", [137, 80, 78, 71, 13]⟩
    (by decide) (by decide) (by decide) (by decide)

end PixShop
